import Mathlib

/-!
Verification development for the mark2docx rendering engine (src/main.py).

The Python module converts a markdown-it token stream into a Word document.
We embed its pure core shallowly:
  * `Run`, `PElem`, `Para`, `DTable`, `Block` model python-docx runs,
    paragraph children, paragraphs, tables and body blocks;
  * the external libraries (latex2mathml + pymathml2omml composed, and the
    matplotlib rasterizer) are modelled as oracle parameters `conv` and
    `raster`; `none`/`false` stands for "the library call raises";
  * a render that raises an uncaught Python exception is modelled by `none`;
  * `renderAux` is fuel-indexed (one fuel per iteration of the main
    `while i < len(tokens)` loop); fuel `tokens.length + 1` always suffices
    because every iteration consumes at least one token.
-/

namespace M2D

/-- The backtick character (python `` ` `` in the emphasis regex). -/
def backtick : Char := Char.ofNat 96

/-- Reserved page-break marker literal, src/main.py line 54. -/
def NEW_PAGE_MARKER : String := "[NUEVA PÁGINA]"

/-- Whitespace characters stripped by `str.strip()` (the ASCII ones that
occur in this dialect). -/
def wsChar (c : Char) : Bool := c == ' ' || c == '\t' || c == '\n' || c == '\r'

def trimChars (l : List Char) : List Char :=
  ((l.dropWhile wsChar).reverse.dropWhile wsChar).reverse

/-- Model of `str.strip()` (whitespace trim). -/
def pyStrip (s : String) : String := String.mk (trimChars s.toList)

/-- `a == b` on list heads: is `n` a prefix of `h`? -/
def sameStart : List Char → List Char → Bool
  | [], _ => true
  | _ :: _, [] => false
  | a :: as, b :: bs => a == b && sameStart as bs

/-- `s.startswith(pre)`. -/
def pyStartsWith (s pre : String) : Bool := sameStart pre.toList s.toList

/-- `s.endswith(suf)`. -/
def pyEndsWith (s suf : String) : Bool := sameStart suf.toList.reverse s.toList.reverse

/-- `s[n:]`. -/
def pyDrop (s : String) (n : Nat) : String := String.mk (s.toList.drop n)

/-- `s[:-n]`. -/
def pyDropRight (s : String) (n : Nat) : String :=
  String.mk (s.toList.take (s.toList.length - n))

/-- `len(s)` in characters. -/
def pyLen (s : String) : Nat := s.toList.length

/-- Model of python `needle in haystack` (substring containment). -/
def subIn (n : List Char) : List Char → Bool
  | [] => n.isEmpty
  | h :: t => sameStart n (h :: t) || subIn n t

/-- Python `marker in text` on strings. -/
def pyIn (needle hay : String) : Bool := subIn needle.toList hay.toList

/-- A python-docx text run: text plus direct formatting. -/
structure Run where
  text : String := ""
  bold : Bool := false
  italic : Bool := false
  strike : Bool := false
  fontName : Option String := none
  fontSizePt : Option Nat := none
  /-- `run.font.color.rgb` as a hex string when set. -/
  color : Option String := none
  deriving Repr, DecidableEq

/-- A child of a paragraph: a run, a hyperlink element (`add_hyperlink`),
an OMML math element (`append_omml`), a picture run (`run.add_picture`;
`source` is the text that was rasterized, `centered` records whether the
figure text was placed centered — `ax.text(0.5, 0.5, ..., ha="center",
va="center")` — and the width is in hundredths of an inch), or a run
holding a page break (`run.add_break(type=1)`). -/
inductive PElem where
  | run (r : Run)
  | hyperlink (url text : String)
  | omml (xml : String)
  | picture (source : String) (centered : Bool) (widthCentiInches : Nat)
  | brk
  deriving Repr, DecidableEq

/-- A paragraph: style name, left indent / spacing (hundredths of an inch,
points), and its ordered children. -/
structure Para where
  style : String := "Normal"
  leftIndentCenti : Option Nat := none
  spaceBeforePt : Option Nat := none
  spaceAfterPt : Option Nat := none
  content : List PElem := []
  deriving Repr, DecidableEq

/-- A table: fixed column count and rows of cells; each cell is the single
paragraph the code writes into. `border` is spec-level state (the code never
sets any border). -/
structure DTable where
  cols : Nat
  border : Bool := false
  rows : List (List Para) := []
  deriving Repr, DecidableEq

/-- A body-level block of the document. -/
inductive Block where
  | para (p : Para)
  | table (t : DTable)
  deriving Repr, DecidableEq

/-- `set_default_font_black`, src/main.py lines 151-153. -/
def set_default_font_black (r : Run) : Run := { r with color := some "000000" }

/-- `paragraph.add_run(t)` followed by `set_default_font_black`. -/
def blackText (t : String) : Run := set_default_font_black { text := t }

/-! ## Inline math isolation (`MATH_INLINE_SPLIT_RE`, line 52)

`re.split` with the capturing pattern `(\$\$.*?\$\$|\$.*?\$)` under DOTALL.
We reproduce the leftmost-match / lazy-closing semantics directly: at a
`$$` the earliest later `$$` closes; failing that the first alternative
fails and `\$.*?\$` matches the two dollars themselves; at a single `$`
the earliest later `$` closes; an unterminated `$` is literal text.
Empty split fields are not emitted (the consumer skips empty parts). -/

/-- Index of the first character satisfying `p`. -/
def firstIdx (p : Char → Bool) : List Char → Option Nat
  | [] => none
  | c :: r => if p c then some 0 else (firstIdx p r).map (· + 1)

/-- Index of the first adjacent `$$` pair. -/
def findDollarPair : List Char → Option Nat
  | '$' :: '$' :: _ => some 0
  | _ :: r => (findDollarPair r).map (· + 1)
  | [] => none

/-- Index of the first adjacent `**` pair. -/
def findStarPair : List Char → Option Nat
  | '*' :: '*' :: _ => some 0
  | _ :: r => (findStarPair r).map (· + 1)
  | [] => none

/-- Index of the first adjacent `***` triple. -/
def findStarTriple : List Char → Option Nat
  | '*' :: '*' :: '*' :: _ => some 0
  | _ :: r => (findStarTriple r).map (· + 1)
  | [] => none

/-- Index of the first adjacent `~~` pair. -/
def findTildePair : List Char → Option Nat
  | '~' :: '~' :: _ => some 0
  | _ :: r => (findTildePair r).map (· + 1)
  | [] => none

/-- Index of the first `](` pair (closing an image/link bracket). -/
def findBracketParen : List Char → Option Nat
  | ']' :: '(' :: _ => some 0
  | _ :: r => (findBracketParen r).map (· + 1)
  | [] => none

/-- Prepend the pending literal text (reversed accumulator) if nonempty. -/
def flushLit (acc : List Char) (parts : List String) : List String :=
  if acc.isEmpty then parts else String.mk acc.reverse :: parts

/-- Worker for `mathSplit`; fuel decreases once per consumed character or
span, so `length + 1` fuel always suffices. -/
def mathSplitAux : Nat → List Char → List Char → List String
  | 0, _, acc => flushLit acc []
  | f + 1, [], acc => flushLit acc []
  | f + 1, '$' :: rest, acc =>
    match rest with
    | '$' :: rest2 =>
      match findDollarPair rest2 with
      | some k =>
        flushLit acc
          (("$$" ++ String.mk (rest2.take k) ++ "$$") :: mathSplitAux f (rest2.drop (k + 2)) [])
      | none => flushLit acc ("$$" :: mathSplitAux f rest2 [])
    | _ =>
      match firstIdx (· == '$') rest with
      | some k =>
        flushLit acc
          (("$" ++ String.mk (rest.take k) ++ "$") :: mathSplitAux f (rest.drop (k + 1)) [])
      | none => mathSplitAux f rest ('$' :: acc)
  | f + 1, c :: rest, acc => mathSplitAux f rest (c :: acc)

/-- `MATH_INLINE_SPLIT_RE.split(text)` with empty fields dropped. -/
def mathSplit (s : String) : List String := mathSplitAux (s.length + 1) s.toList []

/-! ## The math transcoder (`latex_to_omml_or_image`, lines 111-149)

`conv core = some xml` models `mathml2omml(latex_to_mathml(core))`
succeeding; `none` models either library raising.  `raster tex = true`
models the matplotlib figure pipeline succeeding, `false` models it
raising.  The final `paragraph.add_run(core)` cannot raise. -/

/-- Delimiter stripping, lines 117-122. -/
def strip_delims (latex_src : String) : String :=
  if pyStartsWith latex_src "$$" && pyEndsWith latex_src "$$" && decide (pyLen latex_src ≥ 4) then
    pyStrip (pyDropRight (pyDrop latex_src 2) 2)
  else if pyStartsWith latex_src "$" && pyEndsWith latex_src "$" && decide (pyLen latex_src ≥ 2) then
    pyStrip (pyDropRight (pyDrop latex_src 1) 1)
  else pyStrip latex_src

/-- The `$`-wrapping applied to the rasterizer input, lines 137-139. -/
def texWrap (core : String) : String :=
  if pyStartsWith core "$" && pyEndsWith core "$" then core else "$" ++ core ++ "$"

/-- `latex_to_omml_or_image`: the paragraph children it appends.
`as_block` is accepted (and, as in the source, ignored by `append_omml`). -/
def latex_to_omml_or_image (conv : String → Option String) (raster : String → Bool)
    (latex_src : String) (as_block : Bool) : List PElem :=
  let core := strip_delims latex_src
  match conv core with
  | some xml => [PElem.omml xml]
  | none =>
    let render_tex := texWrap core
    if raster render_tex then [PElem.picture render_tex true 550]
    else [PElem.run { text := core }]

/-! ## Emphasis grammar (`_render_emphasis_runs`, lines 460-516)

The single alternation regex, tried left to right over the text; at each
position the alternatives are attempted in source order
(image, link, code, bold+italic, bold, italic, strike); lazy quantifiers
mean each closing delimiter is the earliest one that lets the whole
alternative match. -/

/-- Alternative 1: `!\[(.*?)\]\((.*?)\)` — emits a literal `[alt]` run. -/
def tryImage : List Char → Option (PElem × List Char)
  | '!' :: '[' :: rest =>
    match findBracketParen rest with
    | some j =>
      let alt := rest.take j
      let rest2 := rest.drop (j + 2)
      match firstIdx (· == ')') rest2 with
      | some k => some (.run (blackText ("[" ++ String.mk alt ++ "]")), rest2.drop (k + 1))
      | none => none
    | none => none
  | _ => none

/-- Alternative 2: `\[(.*?)\]\((.*?)\)` — emits a hyperlink element. -/
def tryLink : List Char → Option (PElem × List Char)
  | '[' :: rest =>
    match findBracketParen rest with
    | some j =>
      let txt := rest.take j
      let rest2 := rest.drop (j + 2)
      match firstIdx (· == ')') rest2 with
      | some k => some (.hyperlink (String.mk (rest2.take k)) (String.mk txt), rest2.drop (k + 1))
      | none => none
    | none => none
  | _ => none

/-- Alternative 3: a backtick code span with nonempty content. -/
def tryCode (cs : List Char) : Option (PElem × List Char) :=
  match cs with
  | c :: rest =>
    if c == backtick then
      match firstIdx (· == backtick) rest with
      | some k =>
        if k == 0 then none
        else some (.run (set_default_font_black
          { text := String.mk (rest.take k), fontName := some "Consolas", fontSizePt := some 10 }),
          rest.drop (k + 1))
      | none => none
    else none
  | [] => none

/-- Alternative 4: `\*\*\*(.+?)\*\*\*`. -/
def tryBic : List Char → Option (PElem × List Char)
  | '*' :: '*' :: '*' :: rest =>
    match rest with
    | [] => none
    | _ :: tail =>
      (findStarTriple tail).map fun k' =>
        let k := k' + 1
        (.run (set_default_font_black
          { text := String.mk (rest.take k), bold := true, italic := true }), rest.drop (k + 3))
  | _ => none

/-- Alternative 5: `\*\*(.+?)\*\*`. -/
def tryBold : List Char → Option (PElem × List Char)
  | '*' :: '*' :: rest =>
    match rest with
    | [] => none
    | _ :: tail =>
      (findStarPair tail).map fun k' =>
        let k := k' + 1
        (.run (set_default_font_black { text := String.mk (rest.take k), bold := true }),
          rest.drop (k + 2))
  | _ => none

/-- Alternative 6: `\*(.+?)\*`. -/
def tryItal : List Char → Option (PElem × List Char)
  | '*' :: rest =>
    match rest with
    | [] => none
    | _ :: tail =>
      (firstIdx (· == '*') tail).map fun k' =>
        let k := k' + 1
        (.run (set_default_font_black { text := String.mk (rest.take k), italic := true }),
          rest.drop (k + 1))
  | _ => none

/-- Alternative 7: `\~\~(.+?)\~\~`. -/
def tryStrike : List Char → Option (PElem × List Char)
  | '~' :: '~' :: rest =>
    match rest with
    | [] => none
    | _ :: tail =>
      (findTildePair tail).map fun k' =>
        let k := k' + 1
        (.run (set_default_font_black { text := String.mk (rest.take k), strike := true }),
          rest.drop (k + 2))
  | _ => none

/-- The full alternation at one position, in source order. -/
def emphMatchAt (cs : List Char) : Option (PElem × List Char) :=
  (tryImage cs) <|> (tryLink cs) <|> (tryCode cs) <|> (tryBic cs) <|> (tryBold cs) <|>
    (tryItal cs) <|> (tryStrike cs)

/-- Prepend the pending literal run (reversed accumulator) if nonempty.
Literal stretches get `set_default_font_black` (lines 482-483, 514-516). -/
def flushRun (acc : List Char) (es : List PElem) : List PElem :=
  if acc.isEmpty then es else .run (blackText (String.mk acc.reverse)) :: es

/-- Worker for `render_emphasis_runs`; one fuel per consumed character or
match, so `length + 1` fuel always suffices. -/
def emphAux : Nat → List Char → List Char → List PElem
  | 0, _, acc => flushRun acc []
  | f + 1, [], acc => flushRun acc []
  | f + 1, c :: rest, acc =>
    match emphMatchAt (c :: rest) with
    | some (e, rest') => flushRun acc (e :: emphAux f rest' [])
    | none => emphAux f rest (c :: acc)

/-- `_render_emphasis_runs(paragraph, txt)`: the children it appends. -/
def render_emphasis_runs (txt : String) : List PElem :=
  emphAux (txt.length + 1) txt.toList []

/-- `_render_inline`: children appended for one inline token's content.
Empty parts are skipped; `$$...$$` parts go to the transcoder in block
mode, `$...$` parts (length at least 2) in inline mode; the rest through
the emphasis grammar. -/
def render_inline_elems (conv : String → Option String) (raster : String → Bool)
    (text : String) : List PElem :=
  if text = "" then []
  else
    (mathSplit text).foldr
      (fun part acc =>
        if part = "" then acc
        else if pyStartsWith part "$$" && pyEndsWith part "$$" then
          latex_to_omml_or_image conv raster part true ++ acc
        else if pyStartsWith part "$" && pyEndsWith part "$" && decide (pyLen part ≥ 2) then
          latex_to_omml_or_image conv raster part false ++ acc
        else render_emphasis_runs part ++ acc) []

/-! ## Image lookup (`get_image_by_id`, lines 164-176)

`b64decode` models `base64.b64decode`; dictionaries are association lists.
Bytes are lists of naturals. -/

/-- `get_image_by_id(images_map, file_map, image_id)`. -/
def get_image_by_id (b64decode : String → List Nat)
    (images_map : List (String × String)) (file_map : List (String × List Nat))
    (image_id : String) : Option (List Nat) :=
  match images_map.lookup image_id with
  | some raw => some (b64decode raw)
  | none =>
    match file_map.lookup image_id with
    | some f => some f
    | none => none

/-! ## Token stream and the block renderer (`render_tokens_to_docx`, lines 195-421)

Tokens carry exactly what the code reads from them: the type tag, the
heading level (from the `hN` tag), and inline / fence content.  The
renderer walks the list with a cursor; we pass the current suffix instead
of an index (the code only ever reads at or after `i`).  A render that
raises an uncaught exception (an out-of-range `tokens[i]` in the unbounded
row scans, or `row[idx]` past the table's column count) is `none`. -/

inductive Tok where
  | heading_open (lvl : Nat)
  | heading_close
  | paragraph_open
  | inline (content : String)
  | paragraph_close
  | blockquote_open
  | blockquote_close
  | bullet_list_open
  | bullet_list_close
  | ordered_list_open
  | ordered_list_close
  | list_item_open
  | list_item_close
  | fence (content : String)
  | hr
  | table_open
  | table_close
  | thead_open
  | thead_close
  | tbody_open
  | tbody_close
  | tr_open
  | tr_close
  | th_open
  | th_close
  | td_open
  | td_close
  deriving Repr, DecidableEq

/-- Renderer state: the document body, the list-nesting stack
(`list_stack`, entries `(kind, level)`), the `in_table` flag and the
index of the table under construction (`table` variable; the python
object reference becomes an index into the body). -/
structure RState where
  doc : List Block := []
  listStack : List (String × Nat) := []
  inTable : Bool := false
  tableIdx : Option Nat := none
  deriving Repr, DecidableEq

def initState : RState := {}

/-- Append a paragraph to the body. -/
def addPara (s : RState) (p : Para) : RState := { s with doc := s.doc ++ [.para p] }

/-- `add_page_break` (lines 155-159): `doc.add_paragraph().runs.append(...)`
appends to a plain python list and does not alter the document, but it
first creates one empty paragraph and, for its argument, a second
paragraph with one empty run; then a third paragraph gets a run with a
page break. -/
def pageBreakParas : List Block :=
  [.para {}, .para { content := [.run {}] }, .para { content := [.brk] }]

def addPageBreak (s : RState) : RState := { s with doc := s.doc ++ pageBreakParas }

/-- `open_list`: push `(kind, current stack length + 1)` (lines 199-200,
270-274). -/
def pushList (s : RState) (kind : String) : RState :=
  { s with listStack := s.listStack ++ [(kind, s.listStack.length + 1)] }

/-- `close_list`: pop the top entry if the stack is nonempty (lines
202-204). -/
def popList (s : RState) : RState := { s with listStack := s.listStack.dropLast }

/-- The paragraph a `list_item_open` creates: style from the top of the
stack, indent from the depth (lines 283-292). -/
def itemPara (s : RState) (es : List PElem) : Para :=
  let depth := s.listStack.length
  { style := if (s.listStack.getLast? |>.map Prod.fst) == some "ordered"
      then "List Number" else "List Bullet"
    leftIndentCenti := if depth > 1 then some (30 * (depth - 1)) else none
    content := es }

/-- Split a character list at newlines (the accumulator is reversed). -/
def splitNl : List Char → List Char → List String
  | [], acc => [String.mk acc.reverse]
  | '\n' :: r, acc => String.mk acc.reverse :: splitNl r []
  | c :: r, acc => splitNl r (c :: acc)

/-- Python `str.splitlines()` restricted to newline separators: no lines
for the empty string, and no empty final line after a trailing newline. -/
def pySplitlines (s : String) : List String :=
  if s = "" then []
  else
    let parts := splitNl s.toList []
    if pyEndsWith s "\n" then parts.dropLast else parts

/-- The paragraphs a code fence emits (lines 310-322): one `Code`-styled
paragraph per line plus a trailing empty `Code` paragraph. -/
def fenceParas (code : String) : List Block :=
  ((pySplitlines code).map fun line =>
    Block.para
      { style := "Code",
        content := [.run (set_default_font_black { text := line, fontName := some "Consolas" })] })
    ++ [.para { style := "Code" }]

/-- The blockquote scanner (lines 250-267): consume until
`blockquote_close`, turning each `paragraph_open` into an indented
paragraph (the inline token rendered, the token after it blindly skipped
as `paragraph_close`) and skipping anything else. -/
def bqScan (conv : String → Option String) (raster : String → Bool) :
    List Tok → List Block × List Tok
  | [] => ([], [])
  | .blockquote_close :: r => ([], r)
  | .paragraph_open :: .inline c :: _ :: r =>
    let (ps, rest) := bqScan conv raster r
    (.para { leftIndentCenti := some 30, content := render_inline_elems conv raster c } :: ps, rest)
  | .paragraph_open :: .inline c :: [] =>
    ([.para { leftIndentCenti := some 30, content := render_inline_elems conv raster c }], [])
  | .paragraph_open :: _ :: r =>
    let (ps, rest) := bqScan conv raster r
    (.para { leftIndentCenti := some 30 } :: ps, rest)
  | .paragraph_open :: [] => ([.para { leftIndentCenti := some 30 }], [])
  | _ :: r => bqScan conv raster r

/-- The header scanner of the `thead_open` branch (lines 345-367):
the outer loop is bounded by the token count, but the inner
`while tokens[i].type != "tr_close"` is not — running out of tokens while
inside a row raises `IndexError`, which we model as `none`.  State:
whether we are inside a `tr`, the cells of the current row, the complete
rows. -/
def theadLoop : List Tok → Bool → List String → List (List String) →
    Option (List (List String) × List Tok)
  | [], false, _, rows => some (rows, [])
  | [], true, _, _ => none
  | .thead_close :: r, false, _, rows => some (rows, r)
  | .tr_open :: r, false, _, rows => theadLoop r true [] rows
  | .tr_close :: r, true, cells, rows => theadLoop r false [] (rows ++ [cells])
  | .th_open :: .inline c :: _ :: r, true, cells, rows => theadLoop r true (cells ++ [c]) rows
  | .th_open :: .inline _ :: [], true, _, _ => none
  | .th_open :: _ :: r, true, cells, rows => theadLoop r true (cells ++ [""]) rows
  | .th_open :: [], true, _, _ => none
  | _ :: r, inRow, cells, rows => theadLoop r inRow cells rows

/-- The data-row cell scanner of the `tr_open` branch (lines 384-397):
again `while tokens[i].type != "tr_close"` is unbounded, so running out
of tokens is `none`. -/
def tdLoop : List Tok → List String → Option (List String × List Tok)
  | [], _ => none
  | .tr_close :: r, cells => some (cells, r)
  | .td_open :: .inline c :: _ :: r, cells => tdLoop r (cells ++ [c])
  | .td_open :: .inline _ :: [], _ => none
  | .td_open :: _ :: r, cells => tdLoop r (cells ++ [""])
  | .td_open :: [], _ => none
  | _ :: r, cells => tdLoop r cells

/-- Column count for a header (line 369): max row width, or 1 with no
header rows. -/
def headerCols (rows : List (List String)) : Nat :=
  match rows with
  | [] => 1
  | _ => rows.foldl (fun a r => max a r.length) 0

/-- A fresh (empty) table cell: python-docx gives each new cell one empty
paragraph. -/
def emptyCell : Para := {}

/-- The header row of `doc.add_table(rows=1, cols=cols)` after filling the
first header row's texts (lines 370-376): bold black runs, remaining
cells untouched. -/
def headerRowCells (cols : Nat) (h : List String) : List Para :=
  (h.map fun txt =>
    { content := [.run (set_default_font_black { text := txt, bold := true })] : Para })
    ++ List.replicate (cols - h.length) emptyCell

/-- Fill a freshly added data row (lines 401-405): `row[idx]` raises
`IndexError` when the row has more cells than the table has columns.
Each written cell's paragraph first gets `p.text = ""` (an empty run) and
then the inline rendering of the cell text. -/
def fillRow (conv : String → Option String) (raster : String → Bool)
    (cols : Nat) (cells : List String) : Option (List Para) :=
  if cells.length > cols then none
  else some
    ((cells.map fun txt =>
      { content := .run {} :: render_inline_elems conv raster txt : Para })
      ++ List.replicate (cols - cells.length) emptyCell)

/-- One step of `render_tokens_to_docx`'s main loop per unit of fuel; the
current token-list suffix stands for the cursor.  Every branch consumes at
least one token, so fuel `tokens.length + 1` always suffices. -/
def renderAux (conv : String → Option String) (raster : String → Bool)
    (imagesMap : List (String × String)) :
    Nat → List Tok → RState → Option RState
  | 0, _, _ => none
  | _ + 1, [], s => some s
  | f + 1, t :: ts, s =>
    match t with
    | .heading_open lvl =>
      let style := "Heading " ++ toString (min lvl 5)
      match ts with
      | .inline c :: ts' =>
        renderAux conv raster imagesMap f (ts'.drop 1)
          (addPara s { style := style, content := render_inline_elems conv raster c })
      | _ => renderAux conv raster imagesMap f (ts.drop 1) (addPara s { style := style })
    | .paragraph_open =>
      match ts with
      | .inline c :: ts' =>
        if pyIn NEW_PAGE_MARKER (pyStrip c) then
          renderAux conv raster imagesMap f (ts'.drop 1) (addPageBreak s)
        else
          renderAux conv raster imagesMap f (ts'.drop 1)
            (addPara s { content := render_inline_elems conv raster c })
      | _ => renderAux conv raster imagesMap f (ts.drop 1) (addPara s {})
    | .blockquote_open =>
      renderAux conv raster imagesMap f (bqScan conv raster ts).2
        { s with doc := s.doc ++ [.para { leftIndentCenti := some 30 }] ++ (bqScan conv raster ts).1 }
    | .bullet_list_open => renderAux conv raster imagesMap f ts (pushList s "bullet")
    | .ordered_list_open => renderAux conv raster imagesMap f ts (pushList s "ordered")
    | .bullet_list_close => renderAux conv raster imagesMap f ts (popList s)
    | .ordered_list_close => renderAux conv raster imagesMap f ts (popList s)
    | .list_item_open =>
      match ts with
      | .paragraph_open :: .inline c :: ts' =>
        renderAux conv raster imagesMap f (ts'.drop 2)
          (addPara s (itemPara s (render_inline_elems conv raster c)))
      | .paragraph_open :: ts' =>
        renderAux conv raster imagesMap f (ts'.drop 2) (addPara s (itemPara s []))
      | _ => renderAux conv raster imagesMap f (ts.drop 1) (addPara s (itemPara s []))
    | .fence code =>
      renderAux conv raster imagesMap f ts { s with doc := s.doc ++ fenceParas code }
    | .hr =>
      renderAux conv raster imagesMap f ts
        (addPara s
          { spaceBeforePt := some 6, spaceAfterPt := some 6,
            content := [.run (blackText (String.mk (List.replicate 60 '_')))] })
    | .table_open =>
      renderAux conv raster imagesMap f ts { s with inTable := true, tableIdx := none }
    | .thead_open =>
      match theadLoop ts false [] [] with
      | none => none
      | some (rows, rest) =>
        let cols := headerCols rows
        let t : DTable := { cols := cols, rows := [headerRowCells cols (rows.headD [])] }
        renderAux conv raster imagesMap f rest
          { s with doc := s.doc ++ [.table t], tableIdx := some s.doc.length }
    | .tbody_open => renderAux conv raster imagesMap f ts s
    | .tr_open =>
      if s.inTable then
        match tdLoop ts [] with
        | none => none
        | some (cells, rest) =>
          match s.tableIdx with
          | none =>
            match fillRow conv raster cells.length cells with
            | none => none
            | some row =>
              let t : DTable := { cols := cells.length, rows := [row] }
              renderAux conv raster imagesMap f rest
                { s with doc := s.doc ++ [.table t], tableIdx := some s.doc.length }
          | some idx =>
            match s.doc[idx]? with
            | some (.table t) =>
              match fillRow conv raster t.cols cells with
              | none => none
              | some row =>
                renderAux conv raster imagesMap f rest
                  { s with doc := s.doc.set idx (.table { t with rows := t.rows ++ [row] }) }
            | _ => none
      else renderAux conv raster imagesMap f ts s
    | .tbody_close => renderAux conv raster imagesMap f ts s
    | .table_close =>
      renderAux conv raster imagesMap f ts { s with inTable := false, tableIdx := none }
    | _ => renderAux conv raster imagesMap f ts s

/-- `render_tokens_to_docx(doc, tokens, env, images_map)` from a fresh
document. -/
def renderTokens (conv : String → Option String) (raster : String → Bool)
    (imagesMap : List (String × String)) (tokens : List Tok) : Option RState :=
  renderAux conv raster imagesMap (tokens.length + 1) tokens initState

/-- Does the body contain any picture element? -/
def blockHasPicture : Block → Bool
  | .para p => p.content.any fun e => match e with | .picture _ _ _ => true | _ => false
  | .table t => t.rows.any fun row => row.any fun c =>
      c.content.any fun e => match e with | .picture _ _ _ => true | _ => false

def docHasPicture (d : List Block) : Bool := d.any blockHasPicture

/-! ## Style normalization (spec section 4.4) -/

/-- Modelled from the spec: the document-level style-normalization pass of
spec section 4.4 does not exist in src/main.py — the code only has the
per-run primitive `set_default_font_black` (lines 151-153) applied during
rendering, and never touches table borders.  Following the spec's words,
the pass forces the canonical text colour on every run of every paragraph
(headings, normal, quote and list styles are all paragraph styles here)
and makes every table block carry a visible grid border. -/
def normElem : PElem → PElem
  | .run r => .run (set_default_font_black r)
  | e => e

def normPara (p : Para) : Para := { p with content := p.content.map normElem }

def normBlock : Block → Block
  | .para p => .para (normPara p)
  | .table t => .table { t with border := true, rows := t.rows.map (List.map normPara) }

/-- Modelled from the spec: the whole normalization pass over the built
document. -/
def normalize_document (d : List Block) : List Block := d.map normBlock

/-! ## Token-stream builders and the well-formed grammar

`WF` describes the block structure the markdown-it tokenizer emits:
a sequence of blocks (headings, paragraphs, blockquotes of paragraphs,
fences, rules, lists, tables); a list is a sequence of items, each a
`list_item_open`, one leading paragraph, optionally one nested list, and
a `list_item_close`; a table is a single header row plus data rows no
wider than the header (the tokenizer normalizes row widths). -/

/-- A conversion oracle in which both math libraries always raise. -/
def cv0 : String → Option String := fun _ => none

/-- A rasterization oracle in which matplotlib always raises. -/
def rs0 : String → Bool := fun _ => false

def thCellToks (c : String) : List Tok := [.th_open, .inline c, .th_close]

def tdCellToks (c : String) : List Tok := [.td_open, .inline c, .td_close]

def trThToks (h : List String) : List Tok :=
  .tr_open :: (h.flatMap thCellToks ++ [.tr_close])

def trTdToks (r : List String) : List Tok :=
  .tr_open :: (r.flatMap tdCellToks ++ [.tr_close])

/-- The token run of one markdown table: header row `h`, data rows
`rows`. -/
def tableToks (h : List String) (rows : List (List String)) : List Tok :=
  [.table_open, .thead_open] ++ trThToks h ++ [.thead_close, .tbody_open]
    ++ rows.flatMap trTdToks ++ [.tbody_close, .table_close]

/-- Normalizing a paragraph element twice equals normalizing it once. -/
theorem normElem_idem (e : PElem) : normElem (normElem e) = normElem e := by
  cases e <;> rfl

/-- Normalizing a paragraph twice equals normalizing it once. -/
theorem normPara_idem (p : Para) : normPara (normPara p) = normPara p := by
  simp [normPara, List.map_map, Function.comp_def, normElem_idem]

/-- Normalizing one block twice equals normalizing it once. -/
theorem normBlock_idem (b : Block) : normBlock (normBlock b) = normBlock b := by
  cases b with
  | para p => simp [normBlock, normPara_idem]
  | table t => simp [normBlock, List.map_map, Function.comp_def, normPara_idem]

/-- C9: the style-normalization pass (canonical text colour on every run,
visible grid border on every table) is idempotent: applying it twice to
any built document yields exactly the result of applying it once. -/
theorem C9_style_normalization_idempotent (d : List Block) :
    normalize_document (normalize_document d) = normalize_document d := by
  simp [normalize_document, List.map_map, Function.comp_def, normBlock_idem]

/-- C1 (amended): for every behaviour of the two external stages and every
math source and display mode, `latex_to_omml_or_image` appends exactly one
of: a native OMML element; a rasterized centered bounded-width (5.5 in)
picture of the source; or the literal source text as a plain run (the
last resort is `paragraph.add_run(core)`, which sets no styling — in
particular no monospace font).  It never propagates a failure: both
fallible stages are modelled by the oracles, and every oracle outcome is
covered. -/
theorem C1_math_fallback_three_tiers (conv : String → Option String) (raster : String → Bool)
    (latex_src : String) (as_block : Bool) :
    (∃ xml, latex_to_omml_or_image conv raster latex_src as_block = [PElem.omml xml])
    ∨ latex_to_omml_or_image conv raster latex_src as_block
        = [PElem.picture (texWrap (strip_delims latex_src)) true 550]
    ∨ latex_to_omml_or_image conv raster latex_src as_block
        = [PElem.run { text := strip_delims latex_src }] := by
  cases hc : conv (strip_delims latex_src) with
  | some xml => exact Or.inl ⟨xml, by simp [latex_to_omml_or_image, hc]⟩
  | none =>
    cases hr : raster (texWrap (strip_delims latex_src)) with
    | true => exact Or.inr (Or.inl (by simp [latex_to_omml_or_image, hc, hr]))
    | false => exact Or.inr (Or.inr (by simp [latex_to_omml_or_image, hc, hr]))

/-- C1 counterexample: when both stages fail on the malformed source
`\frac{1}{`, the code appends a run with no font at all — not a
monospaced run as the claim states (`paragraph.add_run(core)` sets no
formatting, unlike the `Consolas` code style). -/
theorem C1_counterexample_last_resort_not_monospaced :
    latex_to_omml_or_image cv0 rs0 "\\frac\x7b1\x7d\x7b" false
        = [PElem.run { text := "\\frac\x7b1\x7d\x7b" }]
    ∧ ({ text := "\\frac\x7b1\x7d\x7b" : Run }).fontName = none := ⟨by decide, rfl⟩

/-- C2: failing inputs — a truncated header row, and a complete table
whose data row is wider than its header, both make
`render_tokens_to_docx` raise `IndexError` (modelled `none`): the first
in the unbounded `while tokens[i].type != "tr_close"` scan, the second at
`row[idx]` past the table's column count. -/
theorem C2_malformed_table_aborts_render :
    renderTokens cv0 rs0 [] [.table_open, .thead_open, .tr_open] = none
    ∧ renderTokens cv0 rs0 [] (tableToks ["h1", "h2"] [["a", "b", "c"]]) = none := ⟨rfl, rfl⟩

/-- C4 counterexample: with `imgid` present in the ImageMap, the paragraph
`before ![x](imgid) after` renders as a single paragraph whose middle run
is the literal text `[x]`; no image block is emitted and no paragraph
split happens, refuting the claim. -/
theorem C4_counterexample_inline_image_is_literal_text :
    renderTokens cv0 rs0 [("imgid", "iVBORw0KGgo=")]
        [.paragraph_open, .inline "before ![x](imgid) after", .paragraph_close]
      = some { doc := [.para { content :=
          [.run (blackText "before "), .run (blackText "[x]"), .run (blackText " after")] }] }
    ∧ docHasPicture [.para { content :=
          [.run (blackText "before "), .run (blackText "[x]"), .run (blackText " after")] }]
        = false := ⟨by decide, by decide⟩

/-- C4 (amended): an inline image `![alt](id)` renders as the literal run
`[alt]` inside the same paragraph; the ImageMap is never consulted (the
result is the same for every map and every oracle) and no image block is
ever emitted. -/
theorem C4_inline_image_renders_as_alt_run (conv : String → Option String)
    (raster : String → Bool) (im : List (String × String)) :
    renderTokens conv raster im
        [.paragraph_open, .inline "before ![x](imgid) after", .paragraph_close]
      = some { doc := [.para { content :=
          [.run (blackText "before "), .run (blackText "[x]"), .run (blackText " after")] }] } :=
  rfl

/-- C6 counterexample: `\$5 is not math\$` is split into a literal `\`
part and one inline math span `$5 is not math\$` — not zero math spans —
and the rendered output text is `\` followed by the transcoder's output
for `5 is not math\`, not the literal `$5 is not math$`. -/
theorem C6_counterexample_escaped_dollar_not_honored :
    mathSplit "\\$5 is not math\\$" = ["\\", "$5 is not math\\$"]
    ∧ ((mathSplit "\\$5 is not math\\$").filter fun p =>
        pyStartsWith p "$" && pyEndsWith p "$" && decide (pyLen p ≥ 2)).length = 1
    ∧ render_inline_elems cv0 rs0 "\\$5 is not math\\$"
        = [.run (blackText "\\"), .run { text := "5 is not math\\" }] := ⟨rfl, rfl, by decide⟩

/-- C6 (amended): math isolation does not treat a backslash before `$` as
an escape — `\$5 is not math\$` yields a literal `\` plus an inline math
span; an unterminated `$` is literal text; ordinary `$...$` and `$$...$$`
spans are isolated left to right. -/
theorem C6_math_isolation_actual :
    mathSplit "\\$5 is not math\\$" = ["\\", "$5 is not math\\$"]
    ∧ mathSplit "a$b" = ["a$b"]
    ∧ mathSplit "x $a+b$ y $$c$$ z" = ["x ", "$a+b$", " y ", "$$c$$", " z"] := ⟨rfl, rfl, rfl⟩

/-- C7: the emphasis grammar: the claim's example yields exactly the four
styled runs (bold, italic, strike, code) with literal connective runs in
left-to-right order; `***x***` beats `**x**` beats `*x*` at the same
position; `~~x~~` strikes; an unclosed marker degrades to literal text;
and an italic match does not consume the asterisks of a `**` pair. -/
theorem C7_emphasis_grammar_runs :
    render_emphasis_runs "**bold** and *italic* and ~~gone~~ and `code`"
      = [.run { blackText "bold" with bold := true },
         .run (blackText " and "),
         .run { blackText "italic" with italic := true },
         .run (blackText " and "),
         .run { blackText "gone" with strike := true },
         .run (blackText " and "),
         .run { blackText "code" with fontName := some "Consolas", fontSizePt := some 10 }]
    ∧ render_emphasis_runs "***x***" = [.run { blackText "x" with bold := true, italic := true }]
    ∧ render_emphasis_runs "**x**" = [.run { blackText "x" with bold := true }]
    ∧ render_emphasis_runs "~~x~~" = [.run { blackText "x" with strike := true }]
    ∧ render_emphasis_runs "*x*" = [.run { blackText "x" with italic := true }]
    ∧ render_emphasis_runs "**unclosed" = [.run (blackText "**unclosed")]
    ∧ render_emphasis_runs "*a**b*"
        = [.run { blackText "a" with italic := true }, .run { blackText "b" with italic := true }] :=
  ⟨rfl, rfl, rfl, rfl, rfl, rfl, rfl⟩

/-- C10: `get_image_by_id` prefers the JSON base64 map (returning decoded
bytes even when the same id exists in the multipart file map), falls back
to the file map, and returns `None` — without raising — when the id is in
neither. -/
theorem C10_get_image_by_id_lookup_order (dec : String → List Nat)
    (im : List (String × String)) (fm : List (String × List Nat)) (id : String) :
    (∀ raw, im.lookup id = some raw → get_image_by_id dec im fm id = some (dec raw))
    ∧ (im.lookup id = none → ∀ f, fm.lookup id = some f → get_image_by_id dec im fm id = some f)
    ∧ (im.lookup id = none → fm.lookup id = none → get_image_by_id dec im fm id = none) := by
  refine ⟨?_, ?_, ?_⟩ <;> intros <;> simp [get_image_by_id, *]

/-- Witness for C10 at concrete maps: `a` is in both maps (the decoded
JSON value wins), `b` only in the file map, `c` in neither. -/
theorem C10_get_image_by_id_lookup_order_witness :
    get_image_by_id (fun s => [s.length]) [("a", "QQ==")] [("a", [7]), ("b", [9])] "a" = some [4]
    ∧ get_image_by_id (fun s => [s.length]) [("a", "QQ==")] [("a", [7]), ("b", [9])] "b" = some [9]
    ∧ get_image_by_id (fun s => [s.length]) [("a", "QQ==")] [("a", [7]), ("b", [9])] "c" = none :=
  ⟨(C10_get_image_by_id_lookup_order (fun s => [s.length]) [("a", "QQ==")]
      [("a", [7]), ("b", [9])] "a").1 "QQ==" rfl,
   (C10_get_image_by_id_lookup_order (fun s => [s.length]) [("a", "QQ==")]
      [("a", [7]), ("b", [9])] "b").2.1 rfl [9] rfl,
   (C10_get_image_by_id_lookup_order (fun s => [s.length]) [("a", "QQ==")]
      [("a", [7]), ("b", [9])] "c").2.2 rfl rfl⟩

end M2D
